import Mathlib

/-!
Verification development for the xwidget core of `src/xwidget.c` (embedded
graphical widgets in a text editor).  The C data structures and functions
the claims mention are shallowly embedded as executable Lean definitions,
and the claims are settled as theorems about those definitions.

Conventions of the embedding:
* Lisp objects are modelled by the inductive `LV`, restricted to the
  fragment of values the xwidget code manipulates.  A Lisp list built by
  `listN` is modelled as a Lean `List LV` payload of an input event.
* Machine integers (`int`, `ptrdiff_t`) are modelled as `Int`/`Nat`; no
  arithmetic in the modelled fragment can overflow on realistic inputs,
  and C integer division (truncation towards zero) is written `Int.tdiv`.
* Pointers to heap objects (xwidget pseudovectors) are modelled as `Nat`
  identities resolved through an explicit heap, because removing an
  xwidget from the registry list does not invalidate the object itself.
* Backend (GTK/WebKit) calls are modelled as emitted command values, so
  theorems can speak about which backend commands a code path issues.
-/

set_option maxHeartbeats 1000000

namespace Xwidget

/-- The fragment of Lisp values used by `xwidget.c`: `Qnil`, `Qt`, interned
symbols, fixnums, floats (payload opaque to this core, carried abstractly),
strings, vectors, cons cells, function objects and xwidget pseudovector
references (by heap identity). -/
inductive LV where
  | nil
  | t
  | sym (name : String)
  | int (n : Int)
  | flonum (payload : Int)
  | str (s : String)
  | vec (elems : List LV)
  | cons (car cdr : LV)
  | func (id : Nat)
  | xwobj (id : Nat)

/-- The `NILP` macro of the C source: true exactly on `Qnil`. -/
def NILP : LV → Bool
  | LV.nil => true
  | _ => false

/-- The `FUNCTIONP` test used by `Fxwidget_webkit_execute_script` (modelled
on the function-object variant of `LV`). -/
def FUNCTIONP : LV → Bool
  | LV.func _ => true
  | _ => false

/-- One slot of `xw->script_callbacks`: the C code stores a cons of a
`make_mint_ptr` to a strdup'ed copy of the script text and the callback
function.  A slot is `none` when it holds `Qnil`. -/
def ScriptCB : Type := String × LV

/-- `larger_vector (cbs, 1, -1)`: reallocate the vector to a strictly larger
one, preserving the existing slots and filling the new slots with `Qnil`.
Emacs grows geometrically; the exact increment is immaterial to every claim,
so the model grows by `length / 2 + 1` slots. -/
def larger_vector (cbs : List (Option ScriptCB)) : List (Option ScriptCB) :=
  cbs ++ List.replicate (cbs.length / 2 + 1) none

/-- The free-slot scan loop of `save_script_callback`:
`for (idx = 0; !NILP (AREF (cbs, idx)); idx++) if (idx + 1 == ASIZE (cbs)) { cbs = larger_vector (cbs, 1, -1); break; }`.
The loop stops on the first `Qnil` slot; if it reaches the last slot and
that slot is occupied it reallocates the vector and breaks immediately,
leaving `idx` at the last old position.  `fuel` bounds the iteration count
(the loop runs at most `cbs.length` steps); it is passed `cbs.length` by
`save_script_callback` and never runs out on inputs the C code can reach. -/
def find_free_idx (cbs : List (Option ScriptCB)) : Nat → Nat → List (Option ScriptCB) × Nat
  | idx, 0 => (cbs, idx)
  | idx, fuel + 1 =>
    if (cbs.getD idx none).isNone then (cbs, idx)
    else if idx + 1 = cbs.length then (larger_vector cbs, idx)
    else find_free_idx cbs (idx + 1) fuel

/-- `save_script_callback (xw, script, fun)`: if the callback vector is nil
allocate a 32-slot nil vector, scan for a free index (growing on a full
vector), store the (script text, callback) pair at the resulting index, and
return the index together with the updated vector. -/
def save_script_callback (cbs0 : List (Option ScriptCB)) (script : String)
    (fn : LV) : List (Option ScriptCB) × Nat :=
  let cbs := if cbs0.isEmpty then List.replicate 32 (none : Option ScriptCB) else cbs0
  let scan := find_free_idx cbs 0 cbs.length
  (scan.1.set scan.2 (some (script, fn)), scan.2)

/-- A callback table with every one of its 32 slots holding a pending
request (the request in slot `i` carries callback function `i`), used to
exercise `save_script_callback` on a full table. -/
def fullTable : List (Option ScriptCB) :=
  (List.range 32).map (fun i => some ("pending", LV.func i))

/-- An xwidget model as far as the registry-level operations observe it:
owning buffer (by identity), type symbol, title, desired geometry
(`CHECK_FIXNAT` makes width/height non-negative), property list, the
script-callback table, the `kill_without_query` flag, and whether
`widget_osr` holds a live WebKit view (the condition that
`xwidget_is_web_view` tests). -/
structure Xw where
  buffer : Nat
  ty : String
  title : LV
  width : Nat
  height : Nat
  plist : LV
  script_callbacks : List (Option ScriptCB)
  kill_without_query : Bool
  webkit_osr : Bool

/-- The model-level initialisation performed by `Fmake_xwidget`: stores
type, title, buffer and geometry, initialises `kill_without_query` to
false, the plist to nil and the callback table to nil; the off-screen
WebKit surface is allocated exactly when the type is `webkit`. -/
def Fmake_xwidget (ty : String) (title : LV) (width height : Nat)
    (buffer : Nat) : Xw :=
  { buffer := buffer, ty := ty, title := title, width := width,
    height := height, plist := LV.nil, script_callbacks := [],
    kill_without_query := false, webkit_osr := ty == "webkit" }

/-- `Fset_xwidget_query_on_exit_flag`: stores `NILP (flag)` into
`kill_without_query` and returns `flag`. -/
def Fset_xwidget_query_on_exit_flag (xw : Xw) (flag : LV) : Xw × LV :=
  ({ xw with kill_without_query := NILP flag }, flag)

/-- `Fxwidget_query_on_exit_flag`: returns `Qnil` when
`kill_without_query` is set, else `Qt`. -/
def Fxwidget_query_on_exit_flag (xw : Xw) : LV :=
  if xw.kill_without_query then LV.nil else LV.t

/-! ### JavaScript values and `webkit_js_to_lisp`

`JSCValue` trees are modelled by a mutual inductive: an array is the
sequence of its elements `0 .. length-1` (the `length` property of a
well-formed backend array equals that count), and an object is the ordered
list of `(property name, value)` pairs in the backend's enumeration order.
`jnum` carries the value that `jsc_value_to_int32` reports for the number
(ECMA `ToInt32`, truncating); `jother` stands for every other value kind
(null, undefined, functions, ...). -/

mutual
inductive JSValue where
  | jstr (s : String)
  | jbool (b : Bool)
  | jnum (n : Int)
  | jarr (elems : JSList)
  | jobj (props : JSProps)
  | jother
inductive JSList where
  | jnil
  | jcons (hd : JSValue) (tl : JSList)
inductive JSProps where
  | pnil
  | pcons (name : String) (v : JSValue) (tl : JSProps)
end

mutual
/-- `webkit_js_to_lisp`: strings to Lisp strings, booleans to `Qt`/`Qnil`,
numbers to fixnums via `jsc_value_to_int32`, arrays to Lisp vectors of the
recursively converted elements, objects to Lisp vectors of
`(name . converted value)` cons pairs in enumeration order, anything else
to `Qnil`. -/
def webkit_js_to_lisp : JSValue → LV
  | JSValue.jstr s => LV.str s
  | JSValue.jbool b => if b then LV.t else LV.nil
  | JSValue.jnum n => LV.int n
  | JSValue.jarr elems => LV.vec (js_array_to_lisp elems)
  | JSValue.jobj props => LV.vec (js_props_to_lisp props)
  | JSValue.jother => LV.nil
/-- The element loop of the array branch of `webkit_js_to_lisp`. -/
def js_array_to_lisp : JSList → List LV
  | JSList.jnil => []
  | JSList.jcons v tl => webkit_js_to_lisp v :: js_array_to_lisp tl
/-- The property loop of the object branch of `webkit_js_to_lisp`. -/
def js_props_to_lisp : JSProps → List LV
  | JSProps.pnil => []
  | JSProps.pcons name v tl =>
    LV.cons (LV.str name) (webkit_js_to_lisp v) :: js_props_to_lisp tl
end

/-- Specification-side reflection of a `JSList` into the Lean list of its
elements (element `i` is what `jsc_value_object_get_property_at_index`
returns for index `i`). -/
def js_list_elems : JSList → List JSValue
  | JSList.jnil => []
  | JSList.jcons v tl => v :: js_list_elems tl

/-- Specification-side reflection of a `JSProps` into the ordered Lean
list of its (property name, value) pairs. -/
def js_props_pairs : JSProps → List (String × JSValue)
  | JSProps.pnil => []
  | JSProps.pcons name v tl => (name, v) :: js_props_pairs tl

/-- The nested script value equivalent to an object binding "a" to the
array [1, "x", true] and "b" to an empty object. -/
def exampleJS : JSValue :=
  JSValue.jobj (JSProps.pcons "a"
    (JSValue.jarr (JSList.jcons (JSValue.jnum 1) (JSList.jcons
      (JSValue.jstr "x") (JSList.jcons (JSValue.jbool true) JSList.jnil))))
    (JSProps.pcons "b" (JSValue.jobj JSProps.pnil) JSProps.pnil))

/-! ### Event/callback bridge -/

/-- An editor input event of kind `XWIDGET_EVENT`; `arg` is the Lisp list
built by `listN` in the corresponding `store_...` function. -/
structure InputEvent where
  arg : List LV

/-- `store_xwidget_event_string`: enqueues one event whose payload is
`list3 (intern (eventname), xwidget, build_string (eventstr))`. -/
def store_xwidget_event_string (xwId : Nat) (eventname eventstr : String) :
    List InputEvent :=
  [⟨[LV.sym eventname, LV.xwobj xwId, LV.str eventstr]⟩]

/-- `store_xwidget_download_callback_event`: enqueues one event whose
payload is `list5 (intern ("download-callback"), xwidget, url, mimetype,
filename)`. -/
def store_xwidget_download_callback_event (xwId : Nat)
    (url mimetype filename : String) : List InputEvent :=
  [⟨[LV.sym "download-callback", LV.xwobj xwId, LV.str url,
     LV.str mimetype, LV.str filename]⟩]

/-- `store_xwidget_js_callback_event`: enqueues one event whose payload is
`list4 (intern ("javascript-callback"), xwidget, proc, argument)`. -/
def store_xwidget_js_callback_event (xwId : Nat) (proc argument : LV) :
    List InputEvent :=
  [⟨[LV.sym "javascript-callback", LV.xwobj xwId, proc, argument]⟩]

/-- `webkit_download_cb`: reacts to a download-started backend notification
by storing a `download-started` string event carrying the request URI. -/
def webkit_download_cb (xwId : Nat) (uri : String) : List InputEvent :=
  store_xwidget_event_string xwId "download-started" uri

/-- The observable outcome of one run of `webkit_javascript_finished_cb`:
the updated callback table, the enqueued input events, the `g_warning`
diagnostics, and the script texts released with `xfree`. -/
structure JsFinishedResult where
  script_callbacks : List (Option ScriptCB)
  events : List InputEvent
  warnings : List String
  freed : List String

/-- `webkit_javascript_finished_cb`: reads the slot at the index supplied
at request time, clears it, frees the stored script text if the slot was
occupied; when the backend produced no result it only logs a warning; when
it produced a value and a callback function was registered in the slot it
enqueues a `javascript-callback` event with the converted value. -/
def webkit_javascript_finished_cb (xwId : Nat)
    (cbs : List (Option ScriptCB)) (script_idx : Nat)
    (js_result : Option JSValue) : JsFinishedResult :=
  let script_callback := cbs.getD script_idx none
  let cbs1 := cbs.set script_idx none
  let freed := match script_callback with
    | some sc => [sc.1]
    | none => []
  match js_result with
  | none => ⟨cbs1, [], ["Error running javascript"], freed⟩
  | some v =>
    match script_callback with
    | some sc =>
      if NILP sc.2 then ⟨cbs1, [], [], freed⟩
      else ⟨cbs1, store_xwidget_js_callback_event xwId sc.2
              (webkit_js_to_lisp v), [], freed⟩
    | none => ⟨cbs1, [], [], freed⟩

/-! ### Web-view-specific public operations -/

/-- Errors signalled synchronously to Lisp (`wrong_type_argument`,
`args_out_of_range`). -/
inductive LispError where
  | wrong_type (tag : String)
  | out_of_range

/-- Result of a public operation: a normal return value or a signalled
error. -/
inductive Outcome where
  | ok (v : LV)
  | signal (e : LispError)

/-- Whether an outcome is a signalled (synchronously raised) error. -/
def isSignal : Outcome → Bool
  | Outcome.signal _ => true
  | Outcome.ok _ => false

/-- Backend commands the web-view operations can issue. -/
inductive WebAction where
  | load_uri (u : String)
  | go_back
  | reload
  | go_forward
  | set_zoom_delta (payload : Int)
  | run_javascript (script : String) (idx : Nat)

/-- The diagnostic printed by `WEBKIT_FN_INIT` when the xwidget does not
hold a WebKit view. -/
def webkit_fn_error : String :=
  "ERROR xw->widget_osr does not hold a webkit instance"

/-- What one public web-view operation does: the (possibly updated)
xwidget, the outcome delivered to the caller, the backend actions issued,
and the diagnostics printed to stdout. -/
structure OpResult where
  xw : Xw
  outcome : Outcome
  actions : List WebAction
  diags : List String

/-- `xwidget_is_web_view`: `widget_osr` is non-null and is a WebKit view. -/
def xwidget_is_web_view (xw : Xw) : Bool :=
  xw.webkit_osr

/-- The failure path of `WEBKIT_FN_INIT`: print the diagnostic on stdout
and return `Qnil`, with no backend action. -/
def webkit_fn_init_fail (xw : Xw) : OpResult :=
  ⟨xw, Outcome.ok LV.nil, [], [webkit_fn_error]⟩

/-- State of the backend WebKit view queried by `uri`/`title` (the getters
only read it). -/
structure WebKitState where
  uri : String
  title : Option String

/-- `Fxwidget_webkit_uri`. -/
def Fxwidget_webkit_uri (xw : Xw) (wk : WebKitState) : OpResult :=
  if !xwidget_is_web_view xw then webkit_fn_init_fail xw
  else ⟨xw, Outcome.ok (LV.str wk.uri), [], []⟩

/-- `Fxwidget_webkit_title` (a null backend title reads as `""`). -/
def Fxwidget_webkit_title (xw : Xw) (wk : WebKitState) : OpResult :=
  if !xwidget_is_web_view xw then webkit_fn_init_fail xw
  else ⟨xw, Outcome.ok (LV.str (wk.title.getD "")), [], []⟩

/-- `Fxwidget_webkit_goto_uri`: after the web-view check, `CHECK_STRING`
on the URI, then a `load_uri` backend command. -/
def Fxwidget_webkit_goto_uri (xw : Xw) (uri : LV) : OpResult :=
  if !xwidget_is_web_view xw then webkit_fn_init_fail xw
  else match uri with
    | LV.str u => ⟨xw, Outcome.ok LV.nil, [WebAction.load_uri u], []⟩
    | _ => ⟨xw, Outcome.signal (LispError.wrong_type "stringp"), [], []⟩

/-- `Fxwidget_webkit_goto_history`: after the web-view check, signal
`args_out_of_range` unless the relative position is -1, 0 or 1, then issue
the matching history command. -/
def Fxwidget_webkit_goto_history (xw : Xw) (rel_pos : Int) : OpResult :=
  if !xwidget_is_web_view xw then webkit_fn_init_fail xw
  else if rel_pos < -1 ∨ rel_pos > 1 then
    ⟨xw, Outcome.signal LispError.out_of_range, [], []⟩
  else if rel_pos = -1 then ⟨xw, Outcome.ok LV.nil, [WebAction.go_back], []⟩
  else if rel_pos = 0 then ⟨xw, Outcome.ok LV.nil, [WebAction.reload], []⟩
  else ⟨xw, Outcome.ok LV.nil, [WebAction.go_forward], []⟩

/-- `Fxwidget_webkit_zoom`: after the web-view check, adjust the zoom only
when the factor is a float, always returning `Qnil`. -/
def Fxwidget_webkit_zoom (xw : Xw) (factor : LV) : OpResult :=
  if !xwidget_is_web_view xw then webkit_fn_init_fail xw
  else match factor with
    | LV.flonum z => ⟨xw, Outcome.ok LV.nil, [WebAction.set_zoom_delta z], []⟩
    | _ => ⟨xw, Outcome.ok LV.nil, [], []⟩

/-- A non-web-view xwidget: `Fmake_xwidget` allocates no WebKit surface
for a type other than `webkit`, so `xwidget_is_web_view` is false on it. -/
def buttonXw : Xw := Fmake_xwidget "button" LV.nil 10 10 0

/-- An arbitrary backend view state, for exercising the getters. -/
def wk0 : WebKitState := ⟨"about:blank", none⟩

/-- `Fxwidget_webkit_execute_script`: after the web-view check,
`CHECK_STRING` on the script, reject a non-nil non-function callback, then
save the (script, fun) pair in the callback table and start the
asynchronous run with the slot index as user data. -/
def Fxwidget_webkit_execute_script (xw : Xw) (script fn : LV) : OpResult :=
  if !xwidget_is_web_view xw then webkit_fn_init_fail xw
  else match script with
    | LV.str sc =>
      if !NILP fn && !FUNCTIONP fn then
        ⟨xw, Outcome.signal (LispError.wrong_type "invalid-function"), [], []⟩
      else
        let saved := save_script_callback xw.script_callbacks sc fn
        ⟨{ xw with script_callbacks := saved.1 }, Outcome.ok LV.nil,
         [WebAction.run_javascript sc saved.2], []⟩
    | _ => ⟨xw, Outcome.signal (LispError.wrong_type "stringp"), [], []⟩

/-! ### Model registry and buffer teardown -/

/-- The process-wide model registry: `Vxwidget_list` holds references to
xwidget objects; the heap resolves a reference to the object itself.
Deleting a reference from the list does not destroy the object. -/
structure XwGlobal where
  heap : Nat → Xw
  xwidgetList : List Nat

/-- The scan loop of `Fget_buffer_xwidgets`: walk `Vxwidget_list` and cons
every xwidget owned by the buffer onto the accumulator. -/
def buffer_scan (heap : Nat → Xw) (b : Nat) : List Nat → List Nat → List Nat
  | [], acc => acc
  | i :: tl, acc =>
    buffer_scan heap b tl (if (heap i).buffer = b then i :: acc else acc)

/-- `Fget_buffer_xwidgets`: the xwidgets of a buffer, accumulated by the
scan loop (so in reverse registry order; the spec leaves the order open). -/
def Fget_buffer_xwidgets (st : XwGlobal) (b : Nat) : List Nat :=
  buffer_scan st.heap b st.xwidgetList []

/-- `Fxwidget_info` applied to an arbitrary Lisp value: `CHECK_XWIDGET`
signals `wrong_type_argument` unless the value is an xwidget object, and
otherwise the vector `[type title width height]` is returned. -/
def Fxwidget_info (st : XwGlobal) (obj : LV) : Outcome :=
  match obj with
  | LV.xwobj i =>
    Outcome.ok (LV.vec [LV.sym (st.heap i).ty, (st.heap i).title,
      LV.int (st.heap i).width, LV.int (st.heap i).height])
  | _ => Outcome.signal (LispError.wrong_type "xwidgetp")

/-- The body of the `kill_buffer_xwidgets` loop for one xwidget: `Fdelq`
it from `Vxwidget_list` (removing every occurrence), destroy its backend
surfaces, and free and nil every slot of its callback table. -/
def kill_one (st : XwGlobal) (i : Nat) : XwGlobal :=
  { xwidgetList := st.xwidgetList.filter (fun j => j != i),
    heap := fun j =>
      if j = i then
        { st.heap j with
          script_callbacks := (st.heap j).script_callbacks.map fun _ => none }
      else st.heap j }

/-- `kill_buffer_xwidgets`: collect the buffer's xwidgets once up front,
then run the teardown body on each. -/
def kill_buffer_xwidgets (st : XwGlobal) (b : Nat) : XwGlobal :=
  (Fget_buffer_xwidgets st b).foldl kill_one st

/-- A registry holding one webkit xwidget (identity 0) owned by buffer 7,
with one pending script callback, for exercising `kill_buffer_xwidgets`. -/
def killDemoState : XwGlobal :=
  ⟨fun _ =>
    { buffer := 7, ty := "webkit", title := LV.nil, width := 300,
      height := 200, plist := LV.nil,
      script_callbacks := [some ("pending", LV.nil)],
      kill_without_query := false, webkit_osr := true }, [0]⟩

/-! ### Placement engine (`x_draw_xwidget_glyph_string`) -/

/-- A clip rectangle as stored in `struct xwidget_view`. -/
structure ClipRect where
  left : Int
  top : Int
  right : Int
  bottom : Int
deriving DecidableEq

/-- The clip computation of `x_draw_xwidget_glyph_string` (the four
assignments at the middle of the function), in terms of the model geometry,
the widget origin `(x, y)` and the window's text-area box. -/
def computeClip (width height x y taX taY taW taH : Int) : ClipRect :=
  let clip_left := max 0 (taX - x)
  let clip_right := max clip_left (min width (taX + taW - x))
  let clip_top := max 0 (taY - y)
  let clip_bottom := max clip_top (min height (taY + taH - y))
  ⟨clip_left, clip_top, clip_right, clip_bottom⟩

/-- Modelled from the spec: the clip formula of §4.2 step 3, literally
"clip.left = max(0, contentX - x), clip.top = max(0, contentY - y),
clip.right = max(clip.left, min(model.width, contentX + contentWidth - x)),
clip.bottom = max(clip.top, min(model.height, contentY + contentHeight - y))",
kept as a separate definition so the code's computation can be compared
against it. -/
def specClip (mwidth mheight x y contentX contentY contentWidth
    contentHeight : Int) : ClipRect :=
  { left := max 0 (contentX - x),
    top := max 0 (contentY - y),
    right := max (max 0 (contentX - x)) (min mwidth (contentX + contentWidth - x)),
    bottom := max (max 0 (contentY - y)) (min mheight (contentY + contentHeight - y)) }

/-- The geometry of the model as `x_draw_xwidget_glyph_string` reads and
writes it (`xww->width`, `xww->height`, and whether the type is
`webkit`). -/
structure XwGeom where
  isWebkit : Bool
  width : Int
  height : Int
deriving DecidableEq

/-- The per-view state the placement engine reads and writes: hidden flag,
stored origin and stored clip rectangle. -/
structure XvState where
  hidden : Bool
  x : Int
  y : Int
  clip_left : Int
  clip_top : Int
  clip_right : Int
  clip_bottom : Int
deriving DecidableEq

/-- The inputs `x_draw_xwidget_glyph_string` reads from the glyph string:
`s->x`, `s->y`, `s->height`, and the `window_box (s->w, TEXT_AREA, ...)`
output. -/
structure GlyphArgs where
  sx : Int
  sy : Int
  sheight : Int
  taX : Int
  taY : Int
  taW : Int
  taH : Int
deriving DecidableEq

/-- The backend commands the placement engine can issue: move the clipping
container, resize it, reposition the content inside it, propagate a model
resize (`Fxwidget_resize`, which also resizes the off-screen surface and
every view surface), and queue a redraw. -/
inductive BackendCmd where
  | move_view (x y : Int)
  | resize_clip_window (w h : Int)
  | move_widget_in_window (x y : Int)
  | model_resize (w h : Int)
  | queue_redraw
deriving DecidableEq

/-- Result of one `x_draw_xwidget_glyph_string` call: the updated model
geometry, the updated view state, and the backend commands issued, in
program order. -/
structure DrawResult where
  xww : XwGeom
  xv : XvState
  cmds : List BackendCmd
deriving DecidableEq

/-- `x_draw_xwidget_glyph_string` on an existing view: compute the widget
origin (`y` recentres the widget on the glyph using the height read
*before* any resize), resize the model to the text area when it differs
(webkit only), compute the new clip rectangle from the post-resize
geometry, store `x`/`y` unconditionally, issue a move when the visible
top-left corner moved, store the clip and issue resize/reposition commands
when any clip component changed, and queue a redraw when the view is not
hidden. -/
def x_draw_xwidget_glyph_string (xww : XwGeom) (xv : XvState)
    (s : GlyphArgs) : DrawResult :=
  let x := s.sx
  let y := s.sy + Int.tdiv s.sheight 2 - Int.tdiv xww.height 2
  let needResize :=
    xww.isWebkit && (xww.width != s.taW || xww.height != s.taH)
  let xww1 := if needResize then
      { xww with width := s.taW, height := s.taH } else xww
  let resizeCmds := if needResize then
      [BackendCmd.model_resize s.taW s.taH] else []
  let clip := computeClip xww1.width xww1.height x y s.taX s.taY s.taW s.taH
  let moved :=
    xv.x + xv.clip_left != x + clip.left || xv.y + xv.clip_top != y + clip.top
  let xv1 := { xv with x := x, y := y }
  let moveCmds := if moved then
      [BackendCmd.move_view (x + clip.left) (y + clip.top)] else []
  let reclip :=
    xv.clip_right != clip.right || xv.clip_bottom != clip.bottom ||
    xv.clip_top != clip.top || xv.clip_left != clip.left
  let xv2 := if reclip then
      { xv1 with
        clip_left := clip.left,
        clip_top := clip.top,
        clip_right := clip.right,
        clip_bottom := clip.bottom } else xv1
  let reclipCmds := if reclip then
      [BackendCmd.resize_clip_window (clip.right - clip.left)
         (clip.bottom - clip.top),
       BackendCmd.move_widget_in_window (-clip.left) (-clip.top)] else []
  let redrawCmds := if xv.hidden then [] else [BackendCmd.queue_redraw]
  ⟨xww1, xv2, resizeCmds ++ moveCmds ++ reclipCmds ++ redrawCmds⟩

/-- The widget origin ordinate computed at the top of
`x_draw_xwidget_glyph_string` (from the model height as read *before* any
resize; when no resize happens this is also the height the clip uses). -/
def draw_y (xww : XwGeom) (s : GlyphArgs) : Int :=
  s.sy + Int.tdiv s.sheight 2 - Int.tdiv xww.height 2

/-- The clip rectangle `x_draw_xwidget_glyph_string` computes when the
model geometry is not resized during the call. -/
def draw_clip (xww : XwGeom) (s : GlyphArgs) : ClipRect :=
  computeClip xww.width xww.height s.sx (draw_y xww s) s.taX s.taY s.taW s.taH

/-- Geometry of a webkit model that is 100 pixels tall while the window's
text area is only 40 pixels tall, so the first draw resizes it. -/
def tallXww : XwGeom := ⟨true, 40, 100⟩

/-- A view whose stored origin and clip are all zero. -/
def zeroXv : XvState := ⟨false, 0, 0, 0, 0, 0, 0⟩

/-- A glyph string at x = 0, y = 100, glyph height 10, over a text area
at (0, 0) sized 40 by 40. -/
def demoArgs : GlyphArgs := ⟨0, 100, 10, 0, 0, 40, 40⟩

/-! ### Visibility tracker (`xwidget_end_redisplay`) -/

/-- A view as the visibility tracker sees it: its window and model
(identities), the hidden and touched (`redisplayed`) flags, the stored
origin and clip offsets, and the current backend position of its clipping
container (`gtk_fixed_move` target). -/
structure XView where
  w : Nat
  model : Nat
  hidden : Bool
  redisplayed : Bool
  x : Int
  y : Int
  clip_left : Int
  clip_top : Int
  posX : Int
  posY : Int
deriving DecidableEq

/-- A glyph of a desired matrix row: either an `XWIDGET_GLYPH` carrying
its xwidget, or any other glyph type. -/
inductive Glyph where
  | xwidget_glyph (model : Nat)
  | other_glyph
deriving DecidableEq

/-- A glyph row with its `enabled_p` flag; `glyphs` is the concatenation
of the used glyphs of the three display areas. -/
structure GlyphRow where
  enabled : Bool
  glyphs : List Glyph
deriving DecidableEq

/-- The scan loop of `Fxwidget_view_lookup`: the first view in
`Vxwidget_view_list` whose model and window match, returned by position. -/
def lookup_scan (model w : Nat) : List XView → Option Nat
  | [] => none
  | v :: vs =>
    if v.model == model && v.w == w then some 0
    else (lookup_scan model w vs).map (· + 1)

/-- `xwidget_view_lookup` resolving a (model, window) pair to a view. -/
def xwidget_view_lookup (vs : List XView) (model w : Nat) : Option Nat :=
  lookup_scan model w vs

/-- `xwidget_touch` applied to the view at a registry position. -/
def touch_nth : List XView → Nat → List XView
  | [], _ => []
  | v :: vs, 0 => { v with redisplayed := true } :: vs
  | v :: vs, n + 1 => v :: touch_nth vs n

/-- The body of the glyph scan of `xwidget_end_redisplay`: for an
`XWIDGET_GLYPH`, resolve its xwidget in the current window and touch the
view (the GTK build asserts the lookup succeeds; a failed lookup touches
nothing). -/
def touch_glyph (vs : List XView) (w : Nat) (g : Glyph) : List XView :=
  match g with
  | Glyph.xwidget_glyph id =>
    match xwidget_view_lookup vs id w with
    | some i => touch_nth vs i
    | none => vs
  | Glyph.other_glyph => vs

/-- The inner loop over the used glyphs of one enabled row. -/
def scan_glyphs : List XView → Nat → List Glyph → List XView
  | vs, _, [] => vs
  | vs, w, g :: gs => scan_glyphs (touch_glyph vs w g) w gs

/-- The outer loop over the rows of the glyph matrix, skipping rows with
`enabled_p` clear. -/
def scan_rows : List XView → Nat → List GlyphRow → List XView
  | vs, _, [] => vs
  | vs, w, r :: rs => scan_rows (if r.enabled then scan_glyphs vs w r.glyphs else vs) w rs

/-- `xwidget_start_redisplay`: clear the touched flag on every view in the
registry. -/
def xwidget_start_redisplay (vs : List XView) : List XView :=
  vs.map (fun v => { v with redisplayed := false })

/-- `xwidget_show_view`: clear hidden and move the clipping container to
the stored origin plus clip offsets. -/
def xwidget_show_view (xv : XView) : XView :=
  { xv with
    hidden := false,
    posX := xv.x + xv.clip_left,
    posY := xv.y + xv.clip_top }

/-- `xwidget_hide_view`: set hidden and move the clipping container to the
off-canvas sentinel `(10000, 10000)` without destroying it. -/
def xwidget_hide_view (xv : XView) : XView :=
  { xv with hidden := true, posX := 10000, posY := 10000 }

/-- `xwidget_end_redisplay`: reset every touched flag, scan the window's
glyph matrix touching the views whose glyphs appear in enabled rows, then
show every touched view of this window and hide every untouched one,
leaving views of other windows alone. -/
def xwidget_end_redisplay (w : Nat) (matrix : List GlyphRow)
    (vs : List XView) : List XView :=
  let vs1 := xwidget_start_redisplay vs
  let vs2 := scan_rows vs1 w matrix
  vs2.map (fun v =>
    if v.w = w then
      (if v.redisplayed then xwidget_show_view v else xwidget_hide_view v)
    else v)

/-- Specification-side predicate: glyph `g` resolves (via
`xwidget_view_lookup` in window `w`) to the view at position `j`. -/
def glyph_touches (vs : List XView) (w j : Nat) (g : Glyph) : Bool :=
  match g with
  | Glyph.xwidget_glyph id => xwidget_view_lookup vs id w == some j
  | Glyph.other_glyph => false

/-- Specification-side predicate: some used glyph of the enabled row `r`
resolves to the view at position `j`. -/
def row_touches (vs : List XView) (w j : Nat) (r : GlyphRow) : Bool :=
  r.enabled && r.glyphs.any (glyph_touches vs w j)

/-- Specification-side predicate: some enabled row of the matrix contains
an `XWIDGET_GLYPH` resolving to the view at position `j`. -/
def matrix_touches (vs : List XView) (w j : Nat)
    (matrix : List GlyphRow) : Bool :=
  matrix.any (row_touches vs w j)

/-- Proof-side helper: merge one touch decision into the `redisplayed`
flag of a view (touching is cumulative across the scan). -/
def touch_upd (b : Bool) (v : XView) : XView :=
  { v with redisplayed := v.redisplayed || b }

/-- A hidden view of model 5 placed in window 1. -/
def demoView : XView :=
  { w := 1, model := 5, hidden := true, redisplayed := false, x := 3,
    y := 4, clip_left := 1, clip_top := 2, posX := 0, posY := 0 }

/-- A one-row matrix whose enabled row shows the glyph of model 5. -/
def demoMatrix : List GlyphRow := [⟨true, [Glyph.xwidget_glyph 5]⟩]

/-! ## Theorems -/

/-- Claim C10: immediately after `set-xwidget-query-on-exit-flag` the
query `xwidget-query-on-exit-flag` returns `t` when the flag was non-nil
and `nil` when it was nil; the setter returns the flag and stores its
negation as `kill_without_query`; and a freshly constructed xwidget reads
as query-on-exit = t because `make-xwidget` initialises
`kill_without_query` to false. -/
theorem C10_query_on_exit_flag (xw : Xw) (flag : LV) (ty : String)
    (title : LV) (width height buffer : Nat) :
    (Fset_xwidget_query_on_exit_flag xw flag).2 = flag ∧
    (Fset_xwidget_query_on_exit_flag xw flag).1.kill_without_query
      = NILP flag ∧
    Fxwidget_query_on_exit_flag (Fset_xwidget_query_on_exit_flag xw flag).1
      = (if NILP flag then LV.nil else LV.t) ∧
    (Fmake_xwidget ty title width height buffer).kill_without_query
      = false ∧
    Fxwidget_query_on_exit_flag (Fmake_xwidget ty title width height buffer)
      = LV.t := by
  refine ⟨rfl, rfl, ?_, rfl, rfl⟩
  by_cases h : NILP flag <;>
    simp [Fxwidget_query_on_exit_flag, Fset_xwidget_query_on_exit_flag, h]

/-- Claim C5: the clip rectangle computed on every draw of a widget glyph
equals exactly the spec's formula (left = max(0, contentX - x), top =
max(0, contentY - y), right = max(left, min(width, contentX +
contentWidth - x)), bottom = max(top, min(height, contentY +
contentHeight - y))), and for all geometry inputs, degenerate ones
included, left ≤ right and top ≤ bottom. -/
theorem C5_clip_rectangle (width height x y taX taY taW taH : Int) :
    computeClip width height x y taX taY taW taH
      = specClip width height x y taX taY taW taH ∧
    (computeClip width height x y taX taY taW taH).left
      ≤ (computeClip width height x y taX taY taW taH).right ∧
    (computeClip width height x y taX taY taW taH).top
      ≤ (computeClip width height x y taX taY taW taH).bottom :=
  ⟨rfl, le_max_left _ _, le_max_left _ _⟩

theorem js_array_to_lisp_eq_map : (es : JSList) →
    js_array_to_lisp es = (js_list_elems es).map webkit_js_to_lisp
  | JSList.jnil => rfl
  | JSList.jcons v tl => by
    simp [js_array_to_lisp, js_list_elems, js_array_to_lisp_eq_map tl]

theorem js_props_to_lisp_eq_map : (ps : JSProps) →
    js_props_to_lisp ps = (js_props_pairs ps).map
      (fun p => LV.cons (LV.str p.1) (webkit_js_to_lisp p.2))
  | JSProps.pnil => rfl
  | JSProps.pcons name v tl => by
    simp [js_props_to_lisp, js_props_pairs, js_props_to_lisp_eq_map tl]

/-- Claim C8: `webkit_js_to_lisp` maps strings to strings, booleans to
booleans, numbers to (truncated) integers, arrays to the ordered sequence
of the recursively converted elements, objects to the ordered sequence of
(name, converted value) cons pairs in enumeration order, and any other
value kind to nil; and the structure equivalent to an object binding "a"
to [1, "x", true] and "b" to an empty object converts to a vector
preserving key order a, b and array order 1, "x", true with the right
type tags. -/
theorem C8_webkit_js_to_lisp_mapping :
    (∀ s, webkit_js_to_lisp (JSValue.jstr s) = LV.str s) ∧
    (∀ b, webkit_js_to_lisp (JSValue.jbool b)
      = (if b then LV.t else LV.nil)) ∧
    (∀ n, webkit_js_to_lisp (JSValue.jnum n) = LV.int n) ∧
    (∀ es, webkit_js_to_lisp (JSValue.jarr es)
      = LV.vec ((js_list_elems es).map webkit_js_to_lisp)) ∧
    (∀ ps, webkit_js_to_lisp (JSValue.jobj ps)
      = LV.vec ((js_props_pairs ps).map
          (fun p => LV.cons (LV.str p.1) (webkit_js_to_lisp p.2)))) ∧
    webkit_js_to_lisp JSValue.jother = LV.nil ∧
    webkit_js_to_lisp exampleJS
      = LV.vec [LV.cons (LV.str "a")
                  (LV.vec [LV.int 1, LV.str "x", LV.t]),
                LV.cons (LV.str "b") (LV.vec [])] := by
  refine ⟨fun _ => rfl, fun _ => rfl, fun _ => rfl, fun es => ?_,
    fun ps => ?_, rfl, rfl⟩
  · simp [webkit_js_to_lisp, js_array_to_lisp_eq_map]
  · simp [webkit_js_to_lisp, js_props_to_lisp_eq_map]

/-- Claim C9 counterexample: in this backend, a download-started
notification is stored through `store_xwidget_event_string`, so the single
enqueued event's payload is `(download-started, model, url)` — three
fields, with no mimeType and no filename as the claim requires. -/
theorem C9_download_payload_counterexample :
    webkit_download_cb 0 "https://example.com"
      = [⟨[LV.sym "download-started", LV.xwobj 0,
           LV.str "https://example.com"]⟩] ∧
    (webkit_download_cb 0 "https://example.com").map
        (fun e => e.arg.length) = [3] :=
  ⟨rfl, rfl⟩

/-- Claim C9 as amended: every download-started backend notification is
converted into exactly one editor input event, whose payload is the tag
`download-started`, the model handle and the url only; the separate
constructor `store_xwidget_download_callback_event` builds the five-field
payload (model, url, mimeType, filename) but tags it `download-callback`,
and is not invoked by this file's download handler. -/
theorem C9_download_event_shape (xwId : Nat)
    (uri url mimetype filename : String) :
    (webkit_download_cb xwId uri).length = 1 ∧
    ((webkit_download_cb xwId uri).headD ⟨[]⟩).arg
      = [LV.sym "download-started", LV.xwobj xwId, LV.str uri] ∧
    (store_xwidget_download_callback_event xwId url mimetype
        filename).length = 1 ∧
    ((store_xwidget_download_callback_event xwId url mimetype
        filename).headD ⟨[]⟩).arg
      = [LV.sym "download-callback", LV.xwobj xwId, LV.str url,
         LV.str mimetype, LV.str filename] :=
  ⟨rfl, rfl, rfl, rfl⟩

/-- Claim C1: on a callback table whose 32 slots all hold pending
requests, `save_script_callback` does reallocate the table to a larger
one, but then stores the new pair at index 31 — a slot that still holds a
pending request — rather than at the first free slot (index 32): the
pending entry of slot 31 is overwritten and its slot is not left stable.
The loop grows the vector and `break`s without advancing `idx` past the
occupied last slot. -/
theorem C1_full_table_overwrites_pending_slot :
    fullTable.length = 32 ∧
    fullTable.getD 31 none = some ("pending", LV.func 31) ∧
    (save_script_callback fullTable "new-script" (LV.func 99)).2 = 31 ∧
    (save_script_callback fullTable "new-script" (LV.func 99)).1.getD 31
        none = some ("new-script", LV.func 99) ∧
    (save_script_callback fullTable "new-script" (LV.func 99)).1.length
      = 49 :=
  ⟨rfl, rfl, rfl, rfl, rfl⟩

/-- Claim C4 counterexample: applying `xwidget-webkit-uri` to an xwidget
that is not a web view does not raise any error to the caller — the
operation prints a diagnostic on stdout and returns nil normally (and
performs no backend action), so no `NotAWebView` failure reaches the
public-operation boundary. -/
theorem C4_no_error_signalled_counterexample :
    (Fxwidget_webkit_uri buttonXw wk0).outcome = Outcome.ok LV.nil ∧
    isSignal (Fxwidget_webkit_uri buttonXw wk0).outcome = false ∧
    (Fxwidget_webkit_uri buttonXw wk0).actions = [] ∧
    (Fxwidget_webkit_uri buttonXw wk0).diags = [webkit_fn_error] :=
  ⟨rfl, rfl, rfl, rfl⟩

/-- Claim C4 as amended: every web-view-specific public operation applied
to an xwidget whose backend is not a web-view variant performs no backend
action and signals no error: the `WEBKIT_FN_INIT` guard prints a
diagnostic to stdout and returns nil to the caller. -/
theorem C4_non_webview_ops_return_nil (xw : Xw) (wk : WebKitState)
    (uri factor script fn : LV) (rel_pos : Int)
    (h : xwidget_is_web_view xw = false) :
    Fxwidget_webkit_uri xw wk = webkit_fn_init_fail xw ∧
    Fxwidget_webkit_title xw wk = webkit_fn_init_fail xw ∧
    Fxwidget_webkit_goto_uri xw uri = webkit_fn_init_fail xw ∧
    Fxwidget_webkit_goto_history xw rel_pos = webkit_fn_init_fail xw ∧
    Fxwidget_webkit_zoom xw factor = webkit_fn_init_fail xw ∧
    Fxwidget_webkit_execute_script xw script fn = webkit_fn_init_fail xw ∧
    (webkit_fn_init_fail xw).outcome = Outcome.ok LV.nil ∧
    (webkit_fn_init_fail xw).actions = [] ∧
    isSignal (webkit_fn_init_fail xw).outcome = false := by
  simp [Fxwidget_webkit_uri, Fxwidget_webkit_title,
    Fxwidget_webkit_goto_uri, Fxwidget_webkit_goto_history,
    Fxwidget_webkit_zoom, Fxwidget_webkit_execute_script, h,
    webkit_fn_init_fail, isSignal]

/-- Witness for C4: the amended statement applied to the concrete
non-web-view xwidget. -/
theorem C4_witness :
    Fxwidget_webkit_goto_uri buttonXw (LV.str "https://example.com")
      = webkit_fn_init_fail buttonXw :=
  (C4_non_webview_ops_return_nil buttonXw wk0
    (LV.str "https://example.com") LV.nil LV.nil LV.nil 0 rfl).2.2.1

/-- Claim C7: when a script-evaluation-finished notification arrives with
the slot index supplied at request time (in range), the slot is cleared in
every case (and the stored script text freed whenever the slot was
occupied); a javascript-callback input event is enqueued iff a
continuation was registered in that slot and the backend produced a result
value; when the backend reports an error, only a diagnostic is logged and
no event is enqueued. -/
theorem C7_javascript_finished_cb (xwId : Nat)
    (cbs : List (Option ScriptCB)) (idx : Nat) (res : Option JSValue)
    (_h : idx < cbs.length) :
    (webkit_javascript_finished_cb xwId cbs idx res).script_callbacks
      = cbs.set idx none ∧
    (webkit_javascript_finished_cb xwId cbs idx res).freed
      = (match cbs.getD idx none with
         | some sc => [sc.1]
         | none => []) ∧
    ((webkit_javascript_finished_cb xwId cbs idx res).events ≠ [] ↔
      (res ≠ none ∧
        ∃ sc, cbs.getD idx none = some sc ∧ NILP sc.2 = false)) ∧
    (res = none →
      (webkit_javascript_finished_cb xwId cbs idx res).events = [] ∧
      (webkit_javascript_finished_cb xwId cbs idx res).warnings ≠ []) ∧
    (∀ v sc, res = some v → cbs.getD idx none = some sc →
      NILP sc.2 = false →
      (webkit_javascript_finished_cb xwId cbs idx res).events
        = store_xwidget_js_callback_event xwId sc.2
            (webkit_js_to_lisp v)) := by
  cases res with
  | none =>
    cases hsc : cbs.getD idx none with
    | none =>
      simp only [webkit_javascript_finished_cb, hsc]
      simp
    | some sc =>
      simp only [webkit_javascript_finished_cb, hsc]
      simp
  | some v =>
    cases hsc : cbs.getD idx none with
    | none =>
      simp only [webkit_javascript_finished_cb, hsc]
      simp
    | some sc =>
      by_cases hn : NILP sc.2 <;>
        first
        | (simp only [webkit_javascript_finished_cb, hsc]
           simp [hn, store_xwidget_js_callback_event])

/-- Witness for C7: a table with one pending request carrying a
continuation, completed with the number 2. -/
theorem C7_witness :
    (webkit_javascript_finished_cb 4
        [some (("code", LV.func 3) : ScriptCB)] 0
        (some (JSValue.jnum 2))).script_callbacks = [none] :=
  (C7_javascript_finished_cb 4 [some (("code", LV.func 3) : ScriptCB)] 0
    (some (JSValue.jnum 2)) (by decide)).1

/-- Claim C6 counterexample: after `kill_buffer_xwidgets` on buffer 7 the
registry no longer lists the model, yet the model handle is still a valid
xwidget object and `xwidget-info` on it still succeeds with the info
vector — it does not fail with an invalid-argument error as the claim
requires. -/
theorem C6_info_succeeds_after_kill_counterexample :
    Fget_buffer_xwidgets (kill_buffer_xwidgets killDemoState 7) 7 = [] ∧
    Fxwidget_info (kill_buffer_xwidgets killDemoState 7) (LV.xwobj 0)
      = Outcome.ok (LV.vec [LV.sym "webkit", LV.nil, LV.int 300,
          LV.int 200]) ∧
    isSignal (Fxwidget_info (kill_buffer_xwidgets killDemoState 7)
        (LV.xwobj 0)) = false :=
  ⟨rfl, rfl, rfl⟩

theorem buffer_scan_eq (heap : Nat → Xw) (b : Nat) (l acc : List Nat) :
    buffer_scan heap b l acc
      = (l.filter (fun i => decide ((heap i).buffer = b))).reverse ++ acc := by
  induction l generalizing acc with
  | nil => simp [buffer_scan]
  | cons i tl ih =>
    by_cases h : (heap i).buffer = b <;> simp [buffer_scan, h, ih]

theorem Fget_buffer_xwidgets_eq (st : XwGlobal) (b : Nat) :
    Fget_buffer_xwidgets st b
      = (st.xwidgetList.filter
          (fun i => decide ((st.heap i).buffer = b))).reverse := by
  simp [Fget_buffer_xwidgets, buffer_scan_eq]

theorem mem_Fget_buffer_xwidgets (st : XwGlobal) (b i : Nat) :
    i ∈ Fget_buffer_xwidgets st b ↔
      i ∈ st.xwidgetList ∧ (st.heap i).buffer = b := by
  simp [Fget_buffer_xwidgets_eq, List.mem_filter]

theorem kill_one_buffer (st : XwGlobal) (i j : Nat) :
    ((kill_one st i).heap j).buffer = (st.heap j).buffer := by
  simp only [kill_one]
  split <;> rfl

theorem kill_one_mem (st : XwGlobal) (i j : Nat) :
    j ∈ (kill_one st i).xwidgetList ↔ j ∈ st.xwidgetList ∧ j ≠ i := by
  simp [kill_one, List.mem_filter]

theorem kill_fold_no_buffer_members (b : Nat) :
    ∀ (todo : List Nat) (st : XwGlobal),
      (∀ j, j ∈ st.xwidgetList → (st.heap j).buffer = b → j ∈ todo) →
      Fget_buffer_xwidgets (todo.foldl kill_one st) b = [] := by
  intro todo
  induction todo with
  | nil =>
    intro st h
    rw [List.foldl_nil, Fget_buffer_xwidgets_eq]
    rw [List.reverse_eq_nil_iff, List.filter_eq_nil_iff]
    intro j hj
    simp only [decide_eq_true_eq]
    intro hb
    exact absurd (h j hj hb) (List.not_mem_nil j)
  | cons i tl ih =>
    intro st h
    rw [List.foldl_cons]
    apply ih
    intro j hj hb
    have hmem := (kill_one_mem st i j).mp hj
    have hb' : (st.heap j).buffer = b := by
      rw [← kill_one_buffer st i j]; exact hb
    have := h j hmem.1 hb'
    rcases List.mem_cons.mp this with h1 | h1
    · exact absurd h1 hmem.2
    · exact h1

theorem map_none_all (l : List (Option ScriptCB)) :
    (l.map fun _ => (none : Option ScriptCB)).all
      (fun c => c.isNone) = true := by
  induction l <;> simp_all

theorem kill_one_clears (st : XwGlobal) (i : Nat) :
    ((kill_one st i).heap i).script_callbacks.all
      (fun c => c.isNone) = true := by
  simp [kill_one, map_none_all]

theorem kill_one_preserves_cleared (st : XwGlobal) (i j : Nat)
    (h : (st.heap j).script_callbacks.all (fun c => c.isNone) = true) :
    ((kill_one st i).heap j).script_callbacks.all
      (fun c => c.isNone) = true := by
  simp only [kill_one]
  split
  · simp [map_none_all]
  · exact h

theorem kill_fold_preserves_cleared (i : Nat) :
    ∀ (todo : List Nat) (st : XwGlobal),
      (st.heap i).script_callbacks.all (fun c => c.isNone) = true →
      ((todo.foldl kill_one st).heap i).script_callbacks.all
        (fun c => c.isNone) = true := by
  intro todo
  induction todo with
  | nil => intro st h; exact h
  | cons k tl ih =>
    intro st h
    exact ih _ (kill_one_preserves_cleared st k i h)

theorem kill_fold_clears (i : Nat) :
    ∀ (todo : List Nat) (st : XwGlobal), i ∈ todo →
      ((todo.foldl kill_one st).heap i).script_callbacks.all
        (fun c => c.isNone) = true := by
  intro todo
  induction todo with
  | nil => intro st h; exact absurd h (List.not_mem_nil i)
  | cons k tl ih =>
    intro st h
    by_cases hik : i ∈ tl
    · exact ih _ hik
    · have hk : i = k := by
        rcases List.mem_cons.mp h with h1 | h1
        · exact h1
        · exact absurd h1 hik
      rw [List.foldl_cons]
      apply kill_fold_preserves_cleared
      rw [hk]
      exact kill_one_clears st k

/-- Claim C6 as amended: after `kill_buffer_xwidgets (B)`,
`get-buffer-xwidgets (B)` returns the empty list and every callback-table
slot of each model that was owned by B is nil; however, a handle to such a
model remains a valid xwidget object, and public operations such as
`xwidget-info` still succeed on it (no invalid-argument error is
signalled). -/
theorem C6_kill_buffer_xwidgets (st : XwGlobal) (b : Nat) :
    Fget_buffer_xwidgets (kill_buffer_xwidgets st b) b = [] ∧
    (∀ i, i ∈ Fget_buffer_xwidgets st b →
      ((kill_buffer_xwidgets st b).heap i).script_callbacks.all
        (fun c => c.isNone) = true) ∧
    (∀ i, i ∈ Fget_buffer_xwidgets st b →
      Fxwidget_info (kill_buffer_xwidgets st b) (LV.xwobj i)
        = Outcome.ok (LV.vec
            [LV.sym ((kill_buffer_xwidgets st b).heap i).ty,
             ((kill_buffer_xwidgets st b).heap i).title,
             LV.int ((kill_buffer_xwidgets st b).heap i).width,
             LV.int ((kill_buffer_xwidgets st b).heap i).height]) ∧
      isSignal (Fxwidget_info (kill_buffer_xwidgets st b) (LV.xwobj i))
        = false) := by
  unfold kill_buffer_xwidgets
  refine ⟨?_, ?_, ?_⟩
  · apply kill_fold_no_buffer_members
    intro j hj hb
    exact (mem_Fget_buffer_xwidgets st b j).mpr ⟨hj, hb⟩
  · intro i hi
    exact kill_fold_clears i _ st hi
  · intro i _
    exact ⟨rfl, rfl⟩

/-- Witness for C6: the amended statement applied to the one-xwidget
registry, showing the pending callback slot is released. -/
theorem C6_witness :
    ((kill_buffer_xwidgets killDemoState 7).heap 0).script_callbacks.all
      (fun c => c.isNone) = true :=
  (C6_kill_buffer_xwidgets killDemoState 7).2.1 0 (by decide)

theorem draw_stable (xww : XwGeom) (xv : XvState) (s : GlyphArgs)
    (hnr : xww.isWebkit = false ∨ (xww.width = s.taW ∧ xww.height = s.taH))
    (hx : xv.x = s.sx) (hy : xv.y = draw_y xww s)
    (hcl : xv.clip_left = (draw_clip xww s).left)
    (hct : xv.clip_top = (draw_clip xww s).top)
    (hcr : xv.clip_right = (draw_clip xww s).right)
    (hcb : xv.clip_bottom = (draw_clip xww s).bottom) :
    (x_draw_xwidget_glyph_string xww xv s).xww = xww ∧
    (x_draw_xwidget_glyph_string xww xv s).xv = xv ∧
    (x_draw_xwidget_glyph_string xww xv s).cmds
      = (if xv.hidden then [] else [BackendCmd.queue_redraw]) := by
  have hfalse :
      (xww.isWebkit && (xww.width != s.taW || xww.height != s.taH))
        = false := by
    rcases hnr with h | h
    · simp [h]
    · simp [h.1, h.2]
  simp only [draw_clip, draw_y] at hy hcl hct hcr hcb
  cases xv
  simp only [] at hx hy hcl hct hcr hcb
  subst hx hy hcl hct hcr hcb
  simp [x_draw_xwidget_glyph_string, hfalse]

theorem draw_first_call (xww : XwGeom) (xv : XvState) (s : GlyphArgs)
    (H : xww.isWebkit = false ∨ xww.height = s.taH) :
    ((x_draw_xwidget_glyph_string xww xv s).xww.isWebkit = false ∨
      ((x_draw_xwidget_glyph_string xww xv s).xww.width = s.taW ∧
       (x_draw_xwidget_glyph_string xww xv s).xww.height = s.taH)) ∧
    (x_draw_xwidget_glyph_string xww xv s).xww.height = xww.height ∧
    (x_draw_xwidget_glyph_string xww xv s).xv.x = s.sx ∧
    (x_draw_xwidget_glyph_string xww xv s).xv.y
      = draw_y (x_draw_xwidget_glyph_string xww xv s).xww s ∧
    (x_draw_xwidget_glyph_string xww xv s).xv.clip_left
      = (draw_clip (x_draw_xwidget_glyph_string xww xv s).xww s).left ∧
    (x_draw_xwidget_glyph_string xww xv s).xv.clip_top
      = (draw_clip (x_draw_xwidget_glyph_string xww xv s).xww s).top ∧
    (x_draw_xwidget_glyph_string xww xv s).xv.clip_right
      = (draw_clip (x_draw_xwidget_glyph_string xww xv s).xww s).right ∧
    (x_draw_xwidget_glyph_string xww xv s).xv.clip_bottom
      = (draw_clip (x_draw_xwidget_glyph_string xww xv s).xww s).bottom ∧
    (x_draw_xwidget_glyph_string xww xv s).xv.hidden = xv.hidden := by
  simp only [x_draw_xwidget_glyph_string]
  split
  case isTrue hres =>
    have hwk : xww.isWebkit = true := by revert hres; cases xww.isWebkit <;> simp
    have hh : xww.height = s.taH := by
      rcases H with h | h
      · rw [h] at hwk; exact absurd hwk (by simp)
      · exact h
    split
    case isTrue hrc =>
      refine ⟨Or.inr ⟨rfl, rfl⟩, hh.symm, rfl, ?_, ?_, ?_, ?_, ?_, rfl⟩ <;>
        first
        | rfl
        | simp [draw_y, draw_clip, hh]
    case isFalse hrc =>
      rw [Bool.not_eq_true] at hrc
      simp only [Bool.or_eq_false_iff] at hrc
      obtain ⟨⟨⟨e1, e2⟩, e3⟩, e4⟩ := hrc
      rw [bne_eq_false_iff_eq] at e1 e2 e3 e4
      refine ⟨Or.inr ⟨rfl, rfl⟩, hh.symm, rfl, ?_, ?_, ?_, ?_, ?_, rfl⟩ <;>
        first
        | rfl
        | simp [draw_y, draw_clip, hh, e1, e2, e3, e4]
  case isFalse hres =>
    rw [Bool.not_eq_true] at hres
    have hnr' : xww.isWebkit = false ∨
        (xww.width = s.taW ∧ xww.height = s.taH) := by
      by_cases hwk : xww.isWebkit = true
      · right
        rw [hwk, Bool.true_and] at hres
        simp only [Bool.or_eq_false_iff] at hres
        exact ⟨bne_eq_false_iff_eq.mp hres.1, bne_eq_false_iff_eq.mp hres.2⟩
      · exact Or.inl (Bool.not_eq_true _ |>.mp hwk)
    split
    case isTrue hrc =>
      exact ⟨hnr', rfl, rfl, rfl, rfl, rfl, rfl, rfl, rfl⟩
    case isFalse hrc =>
      rw [Bool.not_eq_true] at hrc
      simp only [Bool.or_eq_false_iff] at hrc
      obtain ⟨⟨⟨e1, e2⟩, e3⟩, e4⟩ := hrc
      rw [bne_eq_false_iff_eq] at e1 e2 e3 e4
      refine ⟨hnr', rfl, rfl, ?_, ?_, ?_, ?_, ?_, rfl⟩ <;>
        first
        | rfl
        | simp [draw_y, draw_clip, e1, e2, e3, e4]

/-- Claim C3 counterexample: on a webkit model 100 px tall drawn into a
40 px tall text area, the first call resizes the model, which changes the
`y` origin the function computes on the next call (the origin recentres
the widget using the model height); therefore a second call with
identical arguments is not silent — it issues a backend move command
(`gtk_fixed_move` to (0, 85)), contradicting the claim that the second
call issues no move and that the stored x/y equal the newly computed
values. -/
theorem C3_second_call_moves_counterexample :
    (x_draw_xwidget_glyph_string tallXww zeroXv demoArgs).cmds
      = [BackendCmd.model_resize 40 40, BackendCmd.move_view 0 55,
         BackendCmd.resize_clip_window 40 0,
         BackendCmd.move_widget_in_window 0 0, BackendCmd.queue_redraw] ∧
    (x_draw_xwidget_glyph_string
        (x_draw_xwidget_glyph_string tallXww zeroXv demoArgs).xww
        (x_draw_xwidget_glyph_string tallXww zeroXv demoArgs).xv
        demoArgs).cmds
      = [BackendCmd.move_view 0 85, BackendCmd.queue_redraw] ∧
    BackendCmd.move_view 0 85
      ∈ (x_draw_xwidget_glyph_string
          (x_draw_xwidget_glyph_string tallXww zeroXv demoArgs).xww
          (x_draw_xwidget_glyph_string tallXww zeroXv demoArgs).xv
          demoArgs).cmds := by
  refine ⟨by decide, by decide, by decide⟩

/-- Claim C3 as amended: a second `x_draw_xwidget_glyph_string` call with
identical arguments issues no backend move, no reclip/resize and no model
resize — only the usual redraw request — provided the first call did not
change the model height (that is, the model is not a webkit view, or its
height already equals the text-area height, as is the case whenever
nothing changed since a previous draw); in general the first call's
stored clip equals the newly computed one and the model geometry is
stable, but the stored `y` can differ from the next computed `y` when the
first call resized the model height. -/
theorem C3_draw_second_call_silent (xww : XwGeom) (xv : XvState)
    (s : GlyphArgs) (H : xww.isWebkit = false ∨ xww.height = s.taH) :
    (x_draw_xwidget_glyph_string
        (x_draw_xwidget_glyph_string xww xv s).xww
        (x_draw_xwidget_glyph_string xww xv s).xv s).cmds
      = (if xv.hidden then [] else [BackendCmd.queue_redraw]) ∧
    (x_draw_xwidget_glyph_string
        (x_draw_xwidget_glyph_string xww xv s).xww
        (x_draw_xwidget_glyph_string xww xv s).xv s).xww
      = (x_draw_xwidget_glyph_string xww xv s).xww ∧
    (x_draw_xwidget_glyph_string
        (x_draw_xwidget_glyph_string xww xv s).xww
        (x_draw_xwidget_glyph_string xww xv s).xv s).xv
      = (x_draw_xwidget_glyph_string xww xv s).xv := by
  obtain ⟨h1, _h2, h3, h4, h5, h6, h7, h8, h9⟩ := draw_first_call xww xv s H
  obtain ⟨g1, g2, g3⟩ := draw_stable _ _ s h1 h3 h4 h5 h6 h7 h8
  refine ⟨?_, g1, g2⟩
  rw [g3, h9]

/-- Witness for C3: a webkit model whose geometry already matches the
text area; the second draw only queues a redraw. -/
theorem C3_witness :
    (x_draw_xwidget_glyph_string
        (x_draw_xwidget_glyph_string ⟨true, 40, 40⟩ zeroXv demoArgs).xww
        (x_draw_xwidget_glyph_string ⟨true, 40, 40⟩ zeroXv demoArgs).xv
        demoArgs).cmds = [BackendCmd.queue_redraw] := by
  have h :=
    (C3_draw_second_call_silent ⟨true, 40, 40⟩ zeroXv demoArgs
      (Or.inr rfl)).1
  simpa using h

theorem touch_nth_getElem (vs : List XView) (i j : Nat) :
    (touch_nth vs i)[j]? = (if i = j
      then (vs[j]?).map (fun v => { v with redisplayed := true })
      else vs[j]?) := by
  induction vs generalizing i j with
  | nil => simp [touch_nth]
  | cons v tl ih =>
    cases i with
    | zero =>
      cases j with
      | zero => simp [touch_nth]
      | succ j => simp [touch_nth]
    | succ i =>
      cases j with
      | zero => simp [touch_nth]
      | succ j => simpa [touch_nth] using ih i j

theorem touch_nth_length (vs : List XView) (i : Nat) :
    (touch_nth vs i).length = vs.length := by
  induction vs generalizing i with
  | nil => rfl
  | cons v tl ih => cases i <;> simp [touch_nth, ih]

theorem lookup_scan_touch_nth (m w : Nat) (vs : List XView) (i : Nat) :
    lookup_scan m w (touch_nth vs i) = lookup_scan m w vs := by
  induction vs generalizing i with
  | nil => rfl
  | cons v tl ih => cases i <;> simp [touch_nth, lookup_scan, ih]

theorem lookup_scan_start (m w : Nat) (vs : List XView) :
    lookup_scan m w (xwidget_start_redisplay vs) = lookup_scan m w vs := by
  induction vs with
  | nil => rfl
  | cons v tl ih =>
    simp only [xwidget_start_redisplay, List.map_cons] at ih ⊢
    simp [lookup_scan, ih]

theorem touch_glyph_getElem (base cur : List XView) (w j : Nat) (g : Glyph)
    (hag : ∀ m, lookup_scan m w cur = lookup_scan m w base) :
    (touch_glyph cur w g)[j]? = (cur[j]?).map
      (fun v => touch_upd (glyph_touches base w j g) v) := by
  cases g with
  | other_glyph =>
    cases h : cur[j]? <;> simp [touch_glyph, glyph_touches, touch_upd, h]
  | xwidget_glyph id =>
    simp only [touch_glyph, glyph_touches, xwidget_view_lookup, hag id]
    cases hl : lookup_scan id w base with
    | none => cases h : cur[j]? <;> simp [touch_upd, h]
    | some i =>
      rw [touch_nth_getElem]
      by_cases hij : i = j
      · cases h : cur[j]? <;> simp [touch_upd, h, hij]
      · have hbeq : (i == j) = false := beq_eq_false_iff_ne.mpr hij
        cases h : cur[j]? <;> simp [touch_upd, h, hij, hbeq]

theorem touch_glyph_agree (base cur : List XView) (w : Nat) (g : Glyph)
    (hag : ∀ m, lookup_scan m w cur = lookup_scan m w base) :
    ∀ m, lookup_scan m w (touch_glyph cur w g) = lookup_scan m w base := by
  intro m
  cases g with
  | other_glyph => exact hag m
  | xwidget_glyph id =>
    simp only [touch_glyph, xwidget_view_lookup]
    cases hl : lookup_scan id w cur with
    | none => exact hag m
    | some i => rw [lookup_scan_touch_nth]; exact hag m

theorem touch_glyph_length (cur : List XView) (w : Nat) (g : Glyph) :
    (touch_glyph cur w g).length = cur.length := by
  cases g with
  | other_glyph => rfl
  | xwidget_glyph id =>
    simp only [touch_glyph]
    cases hl : xwidget_view_lookup cur id w <;>
      simp [hl, touch_nth_length]

theorem scan_glyphs_getElem (base : List XView) (w j : Nat) :
    ∀ (gs : List Glyph) (cur : List XView),
      (∀ m, lookup_scan m w cur = lookup_scan m w base) →
      (scan_glyphs cur w gs)[j]? = (cur[j]?).map
        (fun v => touch_upd (gs.any (glyph_touches base w j)) v) := by
  intro gs
  induction gs with
  | nil =>
    intro cur _
    cases h : cur[j]? <;> simp [scan_glyphs, touch_upd, h]
  | cons g gs ih =>
    intro cur hag
    simp only [scan_glyphs]
    rw [ih (touch_glyph cur w g) (touch_glyph_agree base cur w g hag)]
    rw [touch_glyph_getElem base cur w j g hag]
    cases h : cur[j]? with
    | none => simp
    | some v => simp [touch_upd, Bool.or_assoc]

theorem scan_glyphs_agree (base : List XView) (w : Nat) :
    ∀ (gs : List Glyph) (cur : List XView),
      (∀ m, lookup_scan m w cur = lookup_scan m w base) →
      ∀ m, lookup_scan m w (scan_glyphs cur w gs) = lookup_scan m w base := by
  intro gs
  induction gs with
  | nil => intro cur hag m; exact hag m
  | cons g gs ih =>
    intro cur hag m
    simp only [scan_glyphs]
    exact ih (touch_glyph cur w g) (touch_glyph_agree base cur w g hag) m

theorem scan_glyphs_length (w : Nat) :
    ∀ (gs : List Glyph) (cur : List XView),
      (scan_glyphs cur w gs).length = cur.length := by
  intro gs
  induction gs with
  | nil => intro cur; rfl
  | cons g gs ih =>
    intro cur
    simp only [scan_glyphs]
    rw [ih, touch_glyph_length]

theorem scan_rows_getElem (base : List XView) (w j : Nat) :
    ∀ (rows : List GlyphRow) (cur : List XView),
      (∀ m, lookup_scan m w cur = lookup_scan m w base) →
      (scan_rows cur w rows)[j]? = (cur[j]?).map
        (fun v => touch_upd (rows.any (row_touches base w j)) v) := by
  intro rows
  induction rows with
  | nil =>
    intro cur _
    cases h : cur[j]? <;> simp [scan_rows, touch_upd, h]
  | cons r rows ih =>
    intro cur hag
    simp only [scan_rows]
    by_cases he : r.enabled = true
    · rw [if_pos he]
      rw [ih (scan_glyphs cur w r.glyphs)
        (scan_glyphs_agree base w r.glyphs cur hag)]
      rw [scan_glyphs_getElem base w j r.glyphs cur hag]
      cases h : cur[j]? with
      | none => simp
      | some v => simp [touch_upd, row_touches, he, Bool.or_assoc]
    · rw [if_neg he]
      rw [ih cur hag]
      rw [Bool.not_eq_true] at he
      cases h : cur[j]? with
      | none => simp
      | some v => simp [touch_upd, row_touches, he]

theorem scan_rows_length (w : Nat) :
    ∀ (rows : List GlyphRow) (cur : List XView),
      (scan_rows cur w rows).length = cur.length := by
  intro rows
  induction rows with
  | nil => intro cur; rfl
  | cons r rows ih =>
    intro cur
    simp only [scan_rows]
    by_cases he : r.enabled = true
    · rw [if_pos he, ih, scan_glyphs_length]
    · rw [if_neg he, ih]

theorem xwidget_end_redisplay_getElem (w : Nat) (matrix : List GlyphRow)
    (vs : List XView) (j : Nat) :
    (xwidget_end_redisplay w matrix vs)[j]? = (vs[j]?).map (fun v =>
      let v1 : XView := { v with redisplayed := matrix_touches vs w j matrix }
      if v1.w = w then
        (if v1.redisplayed then xwidget_show_view v1 else xwidget_hide_view v1)
      else v1) := by
  unfold xwidget_end_redisplay
  rw [List.getElem?_map]
  rw [scan_rows_getElem vs w j matrix (xwidget_start_redisplay vs)
    (fun m => lookup_scan_start m w vs)]
  simp only [xwidget_start_redisplay, List.getElem?_map]
  cases h : vs[j]? with
  | none => simp
  | some v => simp [touch_upd, matrix_touches]

theorem xwidget_end_redisplay_length (w : Nat) (matrix : List GlyphRow)
    (vs : List XView) :
    (xwidget_end_redisplay w matrix vs).length = vs.length := by
  unfold xwidget_end_redisplay
  rw [List.length_map, scan_rows_length, xwidget_start_redisplay,
    List.length_map]

/-- Claim C2: after `xwidget_end_redisplay` runs for window `w` over a
glyph matrix, the view at any registry position `j` keeps its model,
window, origin and clip offsets, and: if its window is `w`, it ends up
with hidden = false exactly when some enabled row of the matrix contains
an `XWIDGET_GLYPH` resolving (via `xwidget_view_lookup` in `w`) to it —
in which case its surface is moved to the stored x/y plus clip offsets —
and otherwise it is hidden and moved to the off-canvas sentinel
(10000, 10000) without being destroyed or removed from the registry
(the registry keeps its length); a view of any other window keeps its
prior hidden state and position. -/
theorem C2_end_redisplay_visibility (w : Nat) (matrix : List GlyphRow)
    (vs : List XView) (j : Nat) (v : XView) (hv : vs[j]? = some v) :
    ∃ v', (xwidget_end_redisplay w matrix vs)[j]? = some v' ∧
      v'.model = v.model ∧ v'.w = v.w ∧ v'.x = v.x ∧ v'.y = v.y ∧
      v'.clip_left = v.clip_left ∧ v'.clip_top = v.clip_top ∧
      (v.w = w →
        ((v'.hidden = false) ↔ matrix_touches vs w j matrix = true) ∧
        (v'.hidden = false →
          v'.posX = v.x + v.clip_left ∧ v'.posY = v.y + v.clip_top) ∧
        (v'.hidden = true → v'.posX = 10000 ∧ v'.posY = 10000)) ∧
      (v.w ≠ w → v'.hidden = v.hidden ∧ v'.posX = v.posX ∧
        v'.posY = v.posY) ∧
      (xwidget_end_redisplay w matrix vs).length = vs.length := by
  have hc := xwidget_end_redisplay_getElem w matrix vs j
  rw [hv] at hc
  simp only [Option.map_some] at hc
  refine ⟨_, hc, ?_⟩
  by_cases hw : v.w = w
  · by_cases hT : matrix_touches vs w j matrix = true
    · simp [hw, hT, xwidget_show_view, xwidget_end_redisplay_length]
    · rw [Bool.not_eq_true] at hT
      simp [hw, hT, xwidget_hide_view, xwidget_end_redisplay_length]
  · simp [hw, xwidget_end_redisplay_length]

/-- Witness for C2: one hidden view of model 5 in window 1, whose glyph
appears in the single enabled row of the matrix. -/
theorem C2_witness :
    ∃ v', (xwidget_end_redisplay 1 demoMatrix [demoView])[0]? = some v' ∧
      v'.model = demoView.model ∧ v'.w = demoView.w ∧
      v'.x = demoView.x ∧ v'.y = demoView.y ∧
      v'.clip_left = demoView.clip_left ∧
      v'.clip_top = demoView.clip_top ∧
      (demoView.w = 1 →
        ((v'.hidden = false) ↔
          matrix_touches [demoView] 1 0 demoMatrix = true) ∧
        (v'.hidden = false →
          v'.posX = demoView.x + demoView.clip_left ∧
          v'.posY = demoView.y + demoView.clip_top) ∧
        (v'.hidden = true → v'.posX = 10000 ∧ v'.posY = 10000)) ∧
      (demoView.w ≠ 1 → v'.hidden = demoView.hidden ∧
        v'.posX = demoView.posX ∧ v'.posY = demoView.posY) ∧
      (xwidget_end_redisplay 1 demoMatrix [demoView]).length
        = ([demoView] : List XView).length :=
  C2_end_redisplay_visibility 1 demoMatrix [demoView] 0 demoView rfl

end Xwidget
